import Mathlib

/-!
# Windows node and container statistics (`pkg/kubelet/winstats`)

A shallow embedding of `winstats.go`, `helpers.go` and `perfcounters.go`.

* Go `uint64` values are natural numbers; every arithmetic result is reduced
  modulo `2 ^ 64` where the Go code can wrap.
* Go `float64` values are modelled by `F64`: a finite value is the rational
  number it denotes, operations round to nearest (ties to even) with a 53 bit
  significand, as IEEE 754 binary64 does.
* Calls into the operating system and into the container runtime are
  parameters of the embedded functions.
-/

namespace Winstats

/-! ## Machine integers -/

/-- Number of values of a Go `uint64`. -/
def uint64Size : Nat := 2 ^ 64

/-- Number of values of a Go `uint32`. -/
def uint32Size : Nat := 2 ^ 32

/-! ## IEEE 754 binary64 -/

/-- A Go `float64`. `finite neg m e` is the finite value `± m * 2 ^ e`
(negative when `neg`); the sign of zero is not tracked, since none of the
embedded operations can observe it. -/
inductive F64 where
  | finite (neg : Bool) (m : Nat) (e : Int)
  | inf (neg : Bool)
  | nan
  deriving DecidableEq

namespace F64

/-- Number of binary digits of `n`, by halving at most `fuel` times. -/
def bitLengthAux : Nat → Nat → Nat
  | 0, _ => 0
  | fuel + 1, n => if n = 0 then 0 else bitLengthAux fuel (n / 2) + 1

/-- Number of binary digits of `n` (`0` for `0`). -/
def bitLength (n : Nat) : Nat := bitLengthAux n n

/-- The product `n * 2 ^ j` as numerator, or `d * 2 ^ (-j)` as denominator:
the fraction `n / d` scaled by `2 ^ j`. -/
def scale (n d : Nat) (j : Int) : Nat × Nat :=
  if 0 ≤ j then (n * 2 ^ j.toNat, d) else (n, d * 2 ^ (-j).toNat)

/-- Floor of the base two logarithm of `n / d`, for `n, d > 0`. -/
def ilog2 (n d : Nat) : Int :=
  let l : Int := (bitLength n : Int) - (bitLength d : Int)
  let s := scale n d (-l)
  if s.2 ≤ s.1 then l else l - 1

/-- Round the fraction `num / den` to the nearest integer, ties to even. -/
def roundHalfEven (num den : Nat) : Nat :=
  let q := num / den
  let r := num % den
  if 2 * r < den then q
  else if den < 2 * r then q + 1
  else if q % 2 = 0 then q else q + 1

/-- Round `± (n / d) * 2 ^ e` (with `d > 0`) to binary64: 53 significant
bits, least exponent `-1074`, overflow to infinity from `2 ^ 1024` on. -/
def round (neg : Bool) (n d : Nat) (e : Int) : F64 :=
  if n = 0 then finite neg 0 0
  else
    let k : Int := max (e + ilog2 n d - 52) (-1074)
    let s := scale n d (e - k)
    let mant := roundHalfEven s.1 s.2
    if 1024 < (bitLength mant : Int) + k then inf neg else finite neg mant k

/-- The integer part of `m * 2 ^ e`. -/
def truncNat (m : Nat) (e : Int) : Nat :=
  if 0 ≤ e then m * 2 ^ e.toNat else m / 2 ^ (-e).toNat

/-- Whether rounding leaves the value as it is, that is, whether a
`float64` can hold it. -/
def representable : F64 → Bool
  | finite neg m e =>
    match round neg m 1 e with
    | finite _ m1 e1 =>
      let k := min e e1
      decide (truncNat m (e - k) = truncNat m1 (e1 - k))
    | _ => false
  | _ => true

/-- The conversion `float64(n)` of a non-negative Go `int`. -/
def ofNat (n : Nat) : F64 := round false n 1 0

/-- Float multiplication `x * y`. -/
def mul : F64 → F64 → F64
  | nan, _ => nan
  | _, nan => nan
  | finite s m e, finite s1 m1 e1 => round (xor s s1) (m * m1) 1 (e + e1)
  | finite s m _, inf s1 => if m = 0 then nan else inf (xor s s1)
  | inf s, finite s1 m _ => if m = 0 then nan else inf (xor s s1)
  | inf s, inf s1 => inf (xor s s1)

/-- Float division `x / d` by the positive integer constant `d` (the code
only divides by `100.0`). -/
def divConst (x : F64) (d : Nat) : F64 :=
  match x with
  | finite s m e => round s m d e
  | inf s => inf s
  | nan => nan

/-- The conversion `uint64(x)`: truncation toward zero when the truncated
value fits a `uint64`. Otherwise Go leaves the result to the implementation;
`impl` is that choice. -/
def toUint64 (impl : F64 → Nat) (x : F64) : Nat :=
  match x with
  | finite neg m e =>
    let t := truncNat m e
    if neg then (if t = 0 then 0 else impl x % uint64Size)
    else if t < uint64Size then t else impl x % uint64Size
  | _ => impl x % uint64Size

/-- The rational number a finite `float64` denotes (`0` for the others). -/
def toRat : F64 → ℚ
  | finite neg m e => (if neg then -1 else 1) * (m : ℚ) * (2 : ℚ) ^ e
  | _ => 0

/-- The `float64` holding the natural number `n` exactly (for `n < 2 ^ 53`). -/
def lit (n : Nat) : F64 := finite false n 0

end F64

/-! ## Data model -/

/-- Metric collected from a counter (`perfcounters.go`). -/
structure Metric where
  Name : String
  Value : F64
  deriving DecidableEq

/-- The zero value of `Metric`: what `var metric Metric` holds. -/
def Metric.zero : Metric := ⟨"", F64.finite false 0 0⟩

/-- An instant of `time.Time`. -/
abbrev Time := Int

/-- The fields of `Client` that hold statistics. The Docker client is a
parameter of the functions that use it; the mutex has no content in a
sequential run. -/
structure Client where
  cpuUsageCoreNanoSeconds : Nat
  memoryPrivWorkingSetBytes : Nat
  memoryCommittedBytes : Nat
  memoryPhysicalCapacityBytes : Nat
  timeStarted : Time
  deriving DecidableEq

/-- What the Go runtime and the machine fix: `runtime.NumCPU()` and the
result of `uint64(x)` for a float that no `uint64` holds. -/
structure Platform where
  numCPU : Nat
  floatToUint64 : F64 → Nat

/-- A Go `error` value. -/
inductive Error where
  | physicalMemory
  | openQuery
  | validatePath (ret : Nat)
  | addCounter (ret : Nat)
  | collectData (ret : Nat)
  | runtime (msg : String)
  deriving DecidableEq

/-- How a Go call with results `(value, error)` ends: it returns the pair
(`none` is `nil`), or it panics. -/
inductive Outcome (α : Type) where
  | returned (value : Option α) (err : Option Error)
  | panicked
  deriving DecidableEq

/-! ## Aggregator: `updateCPU` and the memory gauges -/

/-- The nanoseconds one CPU sample adds:
`uint64((cpu.Value / 100.0) * float64(cpuCores) * 1000000000)`. -/
def cpuDelta (p : Platform) (cpu : Metric) : Nat :=
  F64.toUint64 p.floatToUint64
    (F64.mul (F64.mul (F64.divConst cpu.Value 100) (F64.ofNat p.numCPU)) (F64.lit 1000000000))

/-- `Client.updateCPU`: `c.cpuUsageCoreNanoSeconds += uint64(...)`. -/
def updateCPU (p : Platform) (c : Client) (cpu : Metric) : Client :=
  { c with cpuUsageCoreNanoSeconds := (c.cpuUsageCoreNanoSeconds + cpuDelta p cpu) % uint64Size }

/-- `Client.updateMemoryWorkingSet`. -/
def updateMemoryWorkingSet (p : Platform) (c : Client) (mWorkingSet : Metric) : Client :=
  { c with memoryPrivWorkingSetBytes := F64.toUint64 p.floatToUint64 mWorkingSet.Value }

/-- `Client.updateMemoryCommittedBytes`. -/
def updateMemoryCommittedBytes (p : Platform) (c : Client) (mCommittedBytes : Metric) : Client :=
  { c with memoryCommittedBytes := F64.toUint64 p.floatToUint64 mCommittedBytes.Value }

/-- A sample received by the `select` of `startNodeMonitoring`, tagged with
the channel it came from. -/
inductive Sample where
  | cpu (m : Metric)
  | mWorkingSet (m : Metric)
  | mCommittedBytes (m : Metric)

/-- One iteration of the fan-in loop: the case of the `select` that fires. -/
def dispatch (p : Platform) (c : Client) : Sample → Client
  | Sample.cpu m => updateCPU p c m
  | Sample.mWorkingSet m => updateMemoryWorkingSet p c m
  | Sample.mCommittedBytes m => updateMemoryCommittedBytes p c m

/-- The fan-in loop over a finite sequence of deliveries. -/
def fanIn (p : Platform) (c : Client) (deliveries : List Sample) : Client :=
  deliveries.foldl (dispatch p) c

/-- Whether the sample came from the working-set channel. -/
def Sample.isWorkingSet : Sample → Bool
  | Sample.mWorkingSet _ => true
  | _ => false

/-- Whether the sample came from the committed-bytes channel. -/
def Sample.isCommittedBytes : Sample → Bool
  | Sample.mCommittedBytes _ => true
  | _ => false

/-! ## cadvisor records (the fields this package fills) -/

structure CpuUsage where
  Total : Nat
  deriving DecidableEq

structure CpuStats where
  Usage : CpuUsage
  deriving DecidableEq

structure MemoryStats where
  WorkingSet : Nat
  Usage : Nat
  deriving DecidableEq

structure InterfaceStats where
  Name : String
  RxBytes : Nat
  RxPackets : Nat
  RxErrors : Nat
  RxDropped : Nat
  TxBytes : Nat
  TxPackets : Nat
  TxErrors : Nat
  TxDropped : Nat
  deriving DecidableEq

structure NetworkStats where
  Interfaces : List InterfaceStats
  deriving DecidableEq

/-- Version 2 `ContainerStats`; the pointer fields are options, `CpuInst`
is present or not (the code stores an empty record). -/
structure ContainerStats where
  Timestamp : Time
  Cpu : Option CpuStats
  CpuInst : Bool
  Memory : Option MemoryStats
  Network : Option NetworkStats
  deriving DecidableEq

structure MemorySpec where
  Limit : Nat
  deriving DecidableEq

structure ContainerSpec where
  CreationTime : Time
  Namespace : String
  Labels : List (String × String)
  HasCpu : Bool
  HasMemory : Bool
  Memory : MemorySpec
  HasCustomMetrics : Bool
  HasNetwork : Bool
  HasFilesystem : Bool
  HasDiskIo : Bool
  Image : String
  deriving DecidableEq

structure ContainerInfo where
  Spec : ContainerSpec
  Stats : List ContainerStats
  deriving DecidableEq


/-! ## Node record: `createRootContainerInfo` -/

/-- `Client.createRootContainerInfo`; `now` is the reading of `time.Now()`.
The method reads the client under its lock and stores nothing: the client
comes back as second component. -/
def createRootContainerInfo (c : Client) (now : Time) : ContainerInfo × Client :=
  let stats : List ContainerStats := [] ++ [{
    Timestamp := now
    Cpu := some { Usage := { Total := c.cpuUsageCoreNanoSeconds } }
    CpuInst := false
    Memory := some { WorkingSet := c.memoryPrivWorkingSetBytes, Usage := c.memoryCommittedBytes }
    Network := none }]
  let rootInfo : ContainerInfo := {
    Spec := {
      CreationTime := c.timeStarted
      Namespace := ""
      Labels := []
      HasCpu := true
      HasMemory := true
      Memory := { Limit := c.memoryPhysicalCapacityBytes }
      HasCustomMetrics := false
      HasNetwork := false
      HasFilesystem := false
      HasDiskIo := false
      Image := "" }
    Stats := stats }
  (rootInfo, c)

/-! ## Container runtime -/

/-- The fields of `dockertypes.Container` the package reads. -/
structure Container where
  ID : String
  Image : String
  Created : Int
  Labels : List (String × String)
  deriving DecidableEq

structure DockerCPUUsage where
  TotalUsage : Nat
  deriving DecidableEq

structure DockerCPUStats where
  CPUUsage : DockerCPUUsage
  deriving DecidableEq

structure DockerMemoryStats where
  PrivateWorkingSet : Nat
  Commit : Nat
  deriving DecidableEq

structure DockerStats where
  CPUStats : DockerCPUStats
  MemoryStats : DockerMemoryStats
  deriving DecidableEq

structure DockerNetworkStats where
  RxBytes : Nat
  RxPackets : Nat
  RxErrors : Nat
  RxDropped : Nat
  TxBytes : Nat
  TxPackets : Nat
  TxErrors : Nat
  TxDropped : Nat
  deriving DecidableEq

/-- The decoded stats document. `Networks` is the Go map in the order the
`range` loop visits it. -/
structure StatsJSON where
  Stats : DockerStats
  Networks : List (String × DockerNetworkStats)
  deriving DecidableEq

/-- A non-nil `io.ReadCloser` returned by `ContainerStats`, seen through
what `json.NewDecoder(response).Decode(&stats)` makes of it. -/
structure Response where
  decode : Except Error StatsJSON

/-- The Docker client: the results of `ContainerList` and of
`ContainerStats` for each container ID, as the Go pairs they are
(`none` is `nil`). -/
structure DockerClient where
  ContainerList : List Container × Option Error
  ContainerStats : String → Option Response × Option Error

/-- `Client.getStatsForContainer`. `defer response.Close()` stands before
the error check: with a nil `response` the method call on the nil interface
panics. -/
def getStatsForContainer (d : DockerClient) (containerID : String) : Outcome StatsJSON :=
  match d.ContainerStats containerID with
  | (none, _) => Outcome.panicked
  | (some _, some err) => Outcome.returned none (some err)
  | (some response, none) =>
    match response.decode with
    | Except.error err => Outcome.returned none (some err)
    | Except.ok stats => Outcome.returned (some stats) none

/-- The loop of `createContainerStats` over `dockerStatsJSON.Networks`. -/
def networkInterfaces (defaultInterfaceName : String)
    (networks : List (String × DockerNetworkStats)) : List InterfaceStats :=
  networks.foldl (fun acc entry => acc ++ [{
    Name := defaultInterfaceName
    RxBytes := entry.2.RxBytes
    RxPackets := entry.2.RxPackets
    RxErrors := entry.2.RxErrors
    RxDropped := entry.2.RxDropped
    TxBytes := entry.2.TxBytes
    TxPackets := entry.2.TxPackets
    TxErrors := entry.2.TxErrors
    TxDropped := entry.2.TxDropped }]) []

/-- The record `createContainerStats` builds from a fetched document. -/
def buildContainerStats (defaultInterfaceName : String) (now : Time)
    (dockerStatsJSON : StatsJSON) : ContainerStats :=
  let dockerStats := dockerStatsJSON.Stats
  { Timestamp := now
    Cpu := some { Usage := { Total := (dockerStats.CPUStats.CPUUsage.TotalUsage * 100) % uint64Size } }
    CpuInst := true
    Memory := some { WorkingSet := dockerStats.MemoryStats.PrivateWorkingSet,
                     Usage := dockerStats.MemoryStats.Commit }
    Network := some { Interfaces := networkInterfaces defaultInterfaceName dockerStatsJSON.Networks } }

/-- `Client.createContainerStats`; `defaultInterfaceName` is
`network.DefaultInterfaceName`. -/
def createContainerStats (d : DockerClient) (defaultInterfaceName : String) (now : Time)
    (container : Container) : Outcome ContainerStats :=
  match getStatsForContainer d container.ID with
  | Outcome.panicked => Outcome.panicked
  | Outcome.returned _ (some err) => Outcome.returned none (some err)
  | Outcome.returned none none => Outcome.panicked
  | Outcome.returned (some dockerStatsJSON) none =>
    Outcome.returned (some (buildContainerStats defaultInterfaceName now dockerStatsJSON)) none

/-- `Client.createContainerInfo`. -/
def createContainerInfo (d : DockerClient) (defaultInterfaceName : String) (now : Time)
    (container : Container) : Outcome ContainerInfo :=
  let spec : ContainerSpec := {
    CreationTime := container.Created * 1000000000
    Namespace := "docker"
    Labels := container.Labels
    HasCpu := true
    HasMemory := true
    Memory := { Limit := 0 }
    HasCustomMetrics := false
    HasNetwork := true
    HasFilesystem := false
    HasDiskIo := false
    Image := container.Image }
  match createContainerStats d defaultInterfaceName now container with
  | Outcome.panicked => Outcome.panicked
  | Outcome.returned _ (some err) => Outcome.returned none (some err)
  | Outcome.returned none none => Outcome.panicked -- not reached: see createContainerStats
  | Outcome.returned (some containerStats) none =>
    Outcome.returned (some { Spec := spec, Stats := [] ++ [containerStats] }) none

/-- A Go `map[string]ContainerInfo`: at most one entry per key. -/
abbrev InfoMap := List (String × ContainerInfo)

/-- The assignment `infos[key] = info`. -/
def InfoMap.set (infos : InfoMap) (key : String) (info : ContainerInfo) : InfoMap :=
  (infos.filter (fun entry => entry.1 != key)) ++ [(key, info)]

/-- The read `infos[key]`. -/
def InfoMap.get? (infos : InfoMap) (key : String) : Option ContainerInfo :=
  (infos.find? (fun entry => entry.1 == key)).map Prod.snd

/-- The loop `for idx := range containers` of `WinContainerInfos`; the
`idx`-th container reads the clock at `clock (idx + 1)`. -/
def containerLoop (d : DockerClient) (defaultInterfaceName : String) (clock : Nat → Time) :
    Nat → List Container → InfoMap → Outcome InfoMap
  | _, [], infos => Outcome.returned (some infos) none
  | idx, container :: rest, infos =>
    match createContainerInfo d defaultInterfaceName (clock (idx + 1)) container with
    | Outcome.panicked => Outcome.panicked
    | Outcome.returned _ (some err) => Outcome.returned none (some err)
    | Outcome.returned none none => Outcome.panicked
    | Outcome.returned (some containerInfo) none =>
      containerLoop d defaultInterfaceName clock (idx + 1) rest (infos.set container.ID containerInfo)

/-- `Client.WinContainerInfos`. -/
def WinContainerInfos (d : DockerClient) (defaultInterfaceName : String) (clock : Nat → Time)
    (c : Client) : Outcome InfoMap :=
  let infos : InfoMap := InfoMap.set [] "/" (createRootContainerInfo c (clock 0)).1
  match d.ContainerList with
  | (_, some err) => Outcome.returned none (some err)
  | (containers, none) => containerLoop d defaultInterfaceName clock 0 containers infos


/-! ## Installed memory: `helpers.go` -/

/-- What `win.GetPhysicallyInstalledSystemMemory(&physicalMemoryKiloBytes)`
does: its result and the value it leaves in the variable. -/
structure MemoryProvider where
  ok : Bool
  physicalMemoryKiloBytes : Nat

/-- `getPhysicallyInstalledSystemMemoryBytes`. -/
def getPhysicallyInstalledSystemMemoryBytes (w : MemoryProvider) : Nat × Option Error :=
  if !w.ok then (0, some Error.physicalMemory)
  else (w.physicalMemoryKiloBytes * 1024 % uint64Size, none)

/-! ## Counter sources: `perfcounters.go` -/

def cpuQuery : String := "\\Processor(_Total)\\% Processor Time"

def memoryPrivWorkingSetQuery : String := "\\Process(_Total)\\Working Set - Private"

def memoryCommittedBytesQuery : String := "\\Memory\\Committed Bytes"

/-- The constants of package `win` the code compares with, and
`unsafe.Sizeof(win.PDH_FMT_COUNTERVALUE_ITEM_DOUBLE{})`. -/
structure WinConsts where
  ERROR_SUCCESS : Nat
  PDH_MORE_DATA : Nat
  itemSize : Nat

/-- The return codes of the four calls `readPerformanceCounter` makes to
open one counter. -/
structure OpenResults where
  openQuery : Nat
  validatePath : Nat
  addEnglishCounter : Nat
  collectQueryData : Nat

/-- A goroutine that has been started and has not returned. -/
inductive Task where
  | sampler (counter : String)
  | fanInLoop
  deriving DecidableEq

/-- `readPerformanceCounter`: the channel of the counter (named by its
path) or the error, and the goroutines running afterwards. On success
`go wait.Forever(...)` starts a sampling loop, which never returns. -/
def readPerformanceCounter (k : WinConsts) (pdh : String → OpenResults) (counter : String)
    (tasks : List Task) : (Option String × Option Error) × List Task :=
  if (pdh counter).openQuery ≠ k.ERROR_SUCCESS then ((none, some Error.openQuery), tasks)
  else if (pdh counter).validatePath ≠ k.ERROR_SUCCESS then
    ((none, some (Error.validatePath (pdh counter).validatePath)), tasks)
  else if (pdh counter).addEnglishCounter ≠ k.ERROR_SUCCESS then
    ((none, some (Error.addCounter (pdh counter).addEnglishCounter)), tasks)
  else if (pdh counter).collectQueryData ≠ k.ERROR_SUCCESS then
    ((none, some (Error.collectData (pdh counter).collectQueryData)), tasks)
  else ((some counter, none), tasks ++ [Task.sampler counter])

/-- What one tick's calls into PDH give `collectCounterData`: the return
code of `PdhCollectQueryData`, return code and `bufCount` of the first
`PdhGetFormattedCounterArrayDouble`, and return code, `bufCount` and buffer
contents (`DoubleValue` at each index) of the second. -/
structure TickResults where
  collectQueryData : Nat
  firstRet : Nat
  firstBufCount : Nat
  secondRet : Nat
  secondBufCount : Nat
  doubleValue : Nat → F64

/-- What one call of `collectCounterData` does with the channel. -/
inductive Emission where
  | nothing
  | sent (metric : Metric)
  | panicked
  deriving DecidableEq

/-- The loop `for i := 0; i < int(bufCount); i++` over `filledBuf` of
length `len`: the last metric assigned, or `none` when an index leaves the
slice. -/
def lastInstance (counter : String) (len : Nat) (doubleValue : Nat → F64) (bufCount : Nat)
    (metric : Metric) : Option Metric :=
  (List.range bufCount).foldlM
    (fun _ i => if i < len then some (Metric.mk counter (doubleValue i)) else none) metric

/-- `collectCounterData` for one tick. -/
def collectCounterData (k : WinConsts) (t : TickResults) (counter : String) : Emission :=
  if t.collectQueryData = k.ERROR_SUCCESS then
    let metric := Metric.zero
    if t.firstRet = k.PDH_MORE_DATA then
      let len := (t.firstBufCount % uint32Size) * k.itemSize % uint32Size
      if len = 0 then Emission.panicked
      else if t.secondRet = k.ERROR_SUCCESS then
        match lastInstance counter len t.doubleValue (t.secondBufCount % uint32Size) metric with
        | some last => Emission.sent last
        | none => Emission.panicked
      else Emission.sent metric
    else Emission.sent metric
  else Emission.nothing

/-! ## Construction: `startNodeMonitoring` and `NewClient` -/

/-- `Client.startNodeMonitoring` up to the `for` loop: the value sent on
`errChan` and the goroutines running once it is sent. When all three
counters open, this goroutine itself goes on as the fan-in loop. -/
def startNodeMonitoring (k : WinConsts) (pdh : String → OpenResults) (tasks : List Task) :
    Option Error × List Task :=
  match readPerformanceCounter k pdh cpuQuery tasks with
  | ((_, some err), tasks1) => (some err, tasks1)
  | ((_, none), tasks1) =>
    match readPerformanceCounter k pdh memoryPrivWorkingSetQuery tasks1 with
    | ((_, some err), tasks2) => (some err, tasks2)
    | ((_, none), tasks2) =>
      match readPerformanceCounter k pdh memoryCommittedBytesQuery tasks2 with
      | ((_, some err), tasks3) => (some err, tasks3)
      | ((_, none), tasks3) => (none, tasks3 ++ [Task.fanInLoop])

/-- `NewClient`: the returned pair and the goroutines left running. -/
def NewClient (k : WinConsts) (w : MemoryProvider) (pdh : String → OpenResults) (now : Time) :
    (Option Client × Option Error) × List Task :=
  let client : Client := {
    cpuUsageCoreNanoSeconds := 0
    memoryPrivWorkingSetBytes := 0
    memoryCommittedBytes := 0
    memoryPhysicalCapacityBytes := 0
    timeStarted := now }
  match getPhysicallyInstalledSystemMemoryBytes w with
  | (_, some err) => ((none, some err), [])
  | (memory, none) =>
    let client := { client with memoryPhysicalCapacityBytes := memory }
    match startNodeMonitoring k pdh [] with
    | (err, tasks) => ((some client, err), tasks)


/-! ## Statements of the specification -/

/-- The specification's value for a run of CPU samples: the sum over the
samples of `percent / 100 * numCores * 1e9`, in exact arithmetic. -/
def exactCpuSum (numCores : Nat) (samples : List Metric) : ℚ :=
  (samples.map (fun s => s.Value.toRat / 100 * (numCores : ℚ) * 1000000000)).sum

/-- A call on the aggregator: one of the three updates, or a snapshot taken
by `createRootContainerInfo` at the given clock reading. -/
inductive Op where
  | updateCPU (m : Metric)
  | updateMemoryWorkingSet (m : Metric)
  | updateMemoryCommittedBytes (m : Metric)
  | createRootContainerInfo (now : Time)

/-- Run one call: the client afterwards and the root records produced so
far. -/
def Op.run (p : Platform) (s : Client × List ContainerInfo) : Op → Client × List ContainerInfo
  | Op.updateCPU m => (Winstats.updateCPU p s.1 m, s.2)
  | Op.updateMemoryWorkingSet m => (Winstats.updateMemoryWorkingSet p s.1 m, s.2)
  | Op.updateMemoryCommittedBytes m => (Winstats.updateMemoryCommittedBytes p s.1 m, s.2)
  | Op.createRootContainerInfo now =>
    ((Winstats.createRootContainerInfo s.1 now).2, s.2 ++ [(Winstats.createRootContainerInfo s.1 now).1])

/-- Run a sequence of calls from a client, with no record produced yet. -/
def runOps (p : Platform) (c : Client) (ops : List Op) : Client × List ContainerInfo :=
  ops.foldl (Op.run p) (c, [])

/-! ## Sample data for the worked cases -/

/-- A client with all counters at zero. -/
def zeroClient : Client := ⟨0, 0, 0, 0, 0⟩

/-- A four-core machine (conversions out of range give `0`). -/
def fourCores : Platform := ⟨4, fun _ => 0⟩

/-- A three-core machine (conversions out of range give `0`). -/
def threeCores : Platform := ⟨3, fun _ => 0⟩

/-- A working-set sample of one and a half bytes. -/
def oneAndAHalf : Metric := ⟨memoryPrivWorkingSetQuery, F64.finite false 3 (-1)⟩

/-- Three containers listed by the runtime. -/
def threeContainers : List Container :=
  [⟨"a", "image", 0, []⟩, ⟨"b", "image", 0, []⟩, ⟨"c", "image", 0, []⟩]

/-- A stats document with the given raw CPU ticks and no network entry. -/
def docWithTicks (ticks : Nat) : StatsJSON := ⟨⟨⟨⟨ticks⟩⟩, ⟨4096, 8192⟩⟩, []⟩

/-- A runtime that lists `threeContainers` and whose stats call fails for
container `b` the way the Docker client fails: a nil body and an error. -/
def secondFetchFails : DockerClient where
  ContainerList := (threeContainers, none)
  ContainerStats := fun containerID =>
    if containerID = "b" then (none, some (Error.runtime "connection refused"))
    else (some ⟨Except.ok (docWithTicks 500)⟩, none)

/-- A runtime whose every container reports the given raw CPU ticks. -/
def reportsTicks (ticks : Nat) : DockerClient where
  ContainerList := (threeContainers, none)
  ContainerStats := fun _ => (some ⟨Except.ok (docWithTicks ticks)⟩, none)

/-- The values of the constants on Windows: `ERROR_SUCCESS` is 0,
`PDH_MORE_DATA` is `0x800007D2`, an item takes 24 bytes. -/
def windowsConsts : WinConsts := ⟨0, 0x800007D2, 24⟩

/-- Every counter opens, except that the path of the working-set counter is
rejected by `PdhValidatePath` (with `PDH_CSTATUS_BAD_COUNTERNAME`). -/
def secondPathInvalid : String → OpenResults := fun counter =>
  if counter = memoryPrivWorkingSetQuery then ⟨0, 0xC0000BC0, 0, 0⟩ else ⟨0, 0, 0, 0⟩

/-- Every counter opens. -/
def allOpen : String → OpenResults := fun _ => ⟨0, 0, 0, 0⟩

/-- A tick whose collection succeeds and whose first formatting call returns
`PDH_INVALID_DATA` (`0xC0000BC6`) instead of `PDH_MORE_DATA`. -/
def formatFails : TickResults := ⟨0, 0xC0000BC6, 0, 0, 0, fun _ => F64.finite false 0 0⟩

/-- A tick with a batch of two instances, of values 7 and 42. -/
def twoInstances : TickResults :=
  ⟨0, 0x800007D2, 2, 0, 2, fun i => if i = 0 then F64.lit 7 else F64.lit 42⟩

/-- A provider that reports the given number of kilobytes. -/
def reportsKiloBytes (kb : Nat) : MemoryProvider := ⟨true, kb⟩

/-- Whether `readPerformanceCounter` opens the counter. -/
def opens (k : WinConsts) (pdh : String → OpenResults) (counter : String) : Bool :=
  ((readPerformanceCounter k pdh counter []).1.2).isNone

/-- A stats document with two network entries. -/
def docWithTwoNetworks : StatsJSON :=
  ⟨⟨⟨⟨500⟩⟩, ⟨4096, 8192⟩⟩,
    [("nat", ⟨10, 11, 12, 13, 14, 15, 16, 17⟩), ("overlay", ⟨20, 21, 22, 23, 24, 25, 26, 27⟩)]⟩

/-- A runtime whose every container reports `docWithTwoNetworks`. -/
def reportsTwoNetworks : DockerClient where
  ContainerList := (threeContainers, none)
  ContainerStats := fun _ => (some ⟨Except.ok docWithTwoNetworks⟩, none)

/-! ## Lemmas on the accumulator -/

theorem uint64Size_pos : 0 < uint64Size := by decide

theorem updateCPU_cpu (p : Platform) (c : Client) (m : Metric) :
    (updateCPU p c m).cpuUsageCoreNanoSeconds
      = (c.cpuUsageCoreNanoSeconds + cpuDelta p m) % uint64Size := rfl

theorem foldl_updateCPU_cpu (p : Platform) (samples : List Metric) (c : Client)
    (hc : c.cpuUsageCoreNanoSeconds < uint64Size) :
    (samples.foldl (updateCPU p) c).cpuUsageCoreNanoSeconds
      = (c.cpuUsageCoreNanoSeconds + (samples.map (cpuDelta p)).sum) % uint64Size := by
  induction samples generalizing c with
  | nil => simp [Nat.mod_eq_of_lt hc]
  | cons m rest ih =>
    have hlt : (updateCPU p c m).cpuUsageCoreNanoSeconds < uint64Size := by
      rw [updateCPU_cpu]
      exact Nat.mod_lt _ uint64Size_pos
    rw [List.foldl_cons, ih _ hlt, updateCPU_cpu, List.map_cons, List.sum_cons]
    rw [Nat.add_mod, Nat.mod_mod, ← Nat.add_mod, Nat.add_assoc]

set_option maxRecDepth 100000 in
theorem mul_fifty_on_four :
    F64.mul (F64.mul (F64.divConst (F64.lit 50) 100) (F64.ofNat 4)) (F64.lit 1000000000)
      = F64.finite false 8388608000000000 (-22) := by
  rfl

theorem toUint64_fifty_on_four (impl : F64 → Nat) :
    F64.toUint64 impl (F64.finite false 8388608000000000 (-22)) = 2000000000 := by
  simp [F64.toUint64, F64.truncNat, uint64Size]

theorem cpuDelta_fifty_on_four (impl : F64 → Nat) (name : String) :
    cpuDelta ⟨4, impl⟩ ⟨name, F64.lit 50⟩ = 2000000000 := by
  show F64.toUint64 impl (F64.mul (F64.mul (F64.divConst (F64.lit 50) 100) (F64.ofNat 4))
    (F64.lit 1000000000)) = 2000000000
  rw [mul_fifty_on_four]
  exact toUint64_fifty_on_four impl

theorem cpuDelta_fifty_fourCores :
    cpuDelta fourCores ⟨cpuQuery, F64.lit 50⟩ = 2000000000 :=
  cpuDelta_fifty_on_four _ _

set_option maxRecDepth 100000 in
theorem mul_twentynine_on_three :
    F64.mul (F64.mul (F64.divConst (F64.lit 29) 100) (F64.ofNat 3)) (F64.lit 1000000000)
      = F64.finite false 7298088959999999 (-23) := by
  rfl

theorem cpuDelta_twentynine_threeCores :
    cpuDelta threeCores ⟨cpuQuery, F64.lit 29⟩ = 869999999 := by
  show F64.toUint64 (fun _ => 0) (F64.mul (F64.mul (F64.divConst (F64.lit 29) 100) (F64.ofNat 3))
    (F64.lit 1000000000)) = 869999999
  rw [mul_twentynine_on_three]
  simp [F64.toUint64, F64.truncNat, uint64Size]

set_option maxRecDepth 100000 in
theorem representable_twentynine : F64.representable (F64.lit 29) = true := by
  rfl

/-! ## Lemmas on the gauges -/

theorem fanIn_append (p : Platform) (c : Client) (xs ys : List Sample) :
    fanIn p c (xs ++ ys) = fanIn p (fanIn p c xs) ys := by
  simp [fanIn, List.foldl_append]

theorem fanIn_keeps_workingSet (p : Platform) (post : List Sample) (c : Client)
    (h : ∀ s ∈ post, s.isWorkingSet = false) :
    (fanIn p c post).memoryPrivWorkingSetBytes = c.memoryPrivWorkingSetBytes := by
  induction post generalizing c with
  | nil => rfl
  | cons s rest ih =>
    have hrest : ∀ t ∈ rest, t.isWorkingSet = false :=
      fun t ht => h t (List.mem_cons_of_mem _ ht)
    have hs : s.isWorkingSet = false := h s (List.mem_cons_self _ _)
    show (fanIn p (dispatch p c s) rest).memoryPrivWorkingSetBytes = _
    rw [ih _ hrest]
    cases s with
    | cpu m => rfl
    | mWorkingSet m => simp [Sample.isWorkingSet] at hs
    | mCommittedBytes m => rfl

theorem fanIn_keeps_committedBytes (p : Platform) (post : List Sample) (c : Client)
    (h : ∀ s ∈ post, s.isCommittedBytes = false) :
    (fanIn p c post).memoryCommittedBytes = c.memoryCommittedBytes := by
  induction post generalizing c with
  | nil => rfl
  | cons s rest ih =>
    have hrest : ∀ t ∈ rest, t.isCommittedBytes = false :=
      fun t ht => h t (List.mem_cons_of_mem _ ht)
    have hs : s.isCommittedBytes = false := h s (List.mem_cons_self _ _)
    show (fanIn p (dispatch p c s) rest).memoryCommittedBytes = _
    rw [ih _ hrest]
    cases s with
    | cpu m => rfl
    | mWorkingSet m => rfl
    | mCommittedBytes m => simp [Sample.isCommittedBytes] at hs

theorem toUint64_whole (impl : F64 → Nat) (n : Nat) (h : n < uint64Size) :
    F64.toUint64 impl (F64.finite false n 0) = n := by
  simp [F64.toUint64, F64.truncNat, h]

/-! ## Lemmas on the counter sources -/

theorem readPerformanceCounter_opens (k : WinConsts) (pdh : String → OpenResults)
    (counter : String) (tasks : List Task) (h : opens k pdh counter = true) :
    readPerformanceCounter k pdh counter tasks
      = ((some counter, none), tasks ++ [Task.sampler counter]) := by
  unfold opens readPerformanceCounter at h
  unfold readPerformanceCounter
  split_ifs at h ⊢ <;> simp_all

theorem readPerformanceCounter_fails (k : WinConsts) (pdh : String → OpenResults)
    (counter : String) (tasks : List Task) (h : opens k pdh counter = false) :
    ∃ err, (readPerformanceCounter k pdh counter []).1.2 = some err ∧
      readPerformanceCounter k pdh counter tasks = ((none, some err), tasks) := by
  unfold opens readPerformanceCounter at h
  unfold readPerformanceCounter
  split_ifs at h ⊢ <;> simp_all

theorem lastInstance_within (counter : String) (len : Nat) (doubleValue : Nat → F64)
    (metric : Metric) (n : Nat) (h : n ≤ len) :
    lastInstance counter len doubleValue n metric
      = some (if n = 0 then metric else Metric.mk counter (doubleValue (n - 1))) := by
  induction n with
  | zero => simp [lastInstance]
  | succ n ih =>
    have hn : n < len := h
    have ih1 := ih (Nat.le_of_lt hn)
    unfold lastInstance at ih1 ⊢
    rw [List.range_succ, List.foldlM_append, ih1]
    simp [hn]

/-- On a tick whose three calls succeed and whose batch of `n > 0` instances
fits the buffer, `collectCounterData` sends one metric: the counter path with
the value of the last instance. -/
theorem collectCounterData_sends_last (k : WinConsts) (t : TickResults) (counter : String)
    (hcollect : t.collectQueryData = k.ERROR_SUCCESS) (hfirst : t.firstRet = k.PDH_MORE_DATA)
    (hsecond : t.secondRet = k.ERROR_SUCCESS)
    (hpos : 0 < t.secondBufCount % uint32Size)
    (hfit : t.secondBufCount % uint32Size
      ≤ (t.firstBufCount % uint32Size) * k.itemSize % uint32Size) :
    collectCounterData k t counter
      = Emission.sent ⟨counter, t.doubleValue (t.secondBufCount % uint32Size - 1)⟩ := by
  have hlen : (t.firstBufCount % uint32Size) * k.itemSize % uint32Size ≠ 0 := by omega
  have hne : t.secondBufCount % uint32Size ≠ 0 := by omega
  unfold collectCounterData
  rw [if_pos hcollect]
  simp only [if_pos hfirst, if_neg hlen, if_pos hsecond]
  rw [lastInstance_within _ _ _ _ _ hfit]
  simp [hne]

/-- No sample is sent on a tick whose `PdhCollectQueryData` fails. -/
theorem collectCounterData_silent (k : WinConsts) (t : TickResults) (counter : String)
    (hcollect : t.collectQueryData ≠ k.ERROR_SUCCESS) :
    collectCounterData k t counter = Emission.nothing := by
  unfold collectCounterData
  rw [if_neg hcollect]

/-! ## Lemmas on `WinContainerInfos` -/

theorem find?_filter_of_imp {α : Type} (p q : α → Bool) (l : List α)
    (h : ∀ x, p x = true → q x = true) :
    (l.filter q).find? p = l.find? p := by
  induction l with
  | nil => rfl
  | cons x rest ih =>
    by_cases hq : q x = true
    · rw [List.filter_cons_of_pos hq]
      by_cases hp : p x = true
      · rw [List.find?_cons_of_pos _ hp, List.find?_cons_of_pos _ hp]
      · rw [List.find?_cons_of_neg _ hp, List.find?_cons_of_neg _ hp, ih]
    · have hp : ¬ p x = true := fun hp => hq (h x hp)
      rw [List.filter_cons_of_neg hq, List.find?_cons_of_neg _ hp, ih]

theorem find?_filter_none {α : Type} (p q : α → Bool) (l : List α)
    (h : ∀ x, p x = true → q x = false) :
    (l.filter q).find? p = none := by
  rw [List.find?_eq_none]
  intro x hx
  have hq : q x = true := (List.mem_filter.mp hx).2
  intro hp
  rw [h x hp] at hq
  exact Bool.false_ne_true hq

theorem InfoMap.get?_set (infos : InfoMap) (key : String) (info : ContainerInfo)
    (other : String) :
    (infos.set key info).get? other = if other = key then some info else infos.get? other := by
  unfold InfoMap.set InfoMap.get?
  rw [List.find?_append]
  by_cases h : other = key
  · subst h
    rw [find?_filter_none]
    · simp
    · intro x hx
      simpa using hx
  · rw [find?_filter_of_imp]
    · have hne : ¬ key = other := fun hk => h hk.symm
      simp [h, hne]
    · intro x hx
      have hx1 : x.1 = other := by simpa using hx
      simpa [hx1] using h

theorem createContainerInfo_of_fetch (d : DockerClient) (defaultInterfaceName : String)
    (now : Time) (container : Container) (doc : StatsJSON)
    (h : getStatsForContainer d container.ID = Outcome.returned (some doc) none) :
    ∃ info, createContainerInfo d defaultInterfaceName now container
      = Outcome.returned (some info) none := by
  simp [createContainerInfo, createContainerStats, h]

theorem createContainerInfo_of_error (d : DockerClient) (defaultInterfaceName : String)
    (now : Time) (container : Container) (err : Error)
    (h : getStatsForContainer d container.ID = Outcome.returned none (some err)) :
    createContainerInfo d defaultInterfaceName now container
      = Outcome.returned none (some err) := by
  simp [createContainerInfo, createContainerStats, h]

/-- When every fetch succeeds the loop returns a map, with an entry for a
key exactly when the key had one before or is the ID of a listed container. -/
theorem containerLoop_of_fetches (d : DockerClient) (defaultInterfaceName : String)
    (clock : Nat → Time) (containers : List Container) (idx : Nat) (infos : InfoMap)
    (h : ∀ c ∈ containers, ∃ doc, getStatsForContainer d c.ID = Outcome.returned (some doc) none) :
    ∃ out, containerLoop d defaultInterfaceName clock idx containers infos
        = Outcome.returned (some out) none ∧
      ∀ key, (out.get? key).isSome = true ↔
        ((infos.get? key).isSome = true ∨ key ∈ containers.map Container.ID) := by
  induction containers generalizing idx infos with
  | nil => exact ⟨infos, rfl, by simp⟩
  | cons c rest ih =>
    obtain ⟨doc, hdoc⟩ := h c (List.mem_cons_self _ _)
    obtain ⟨info, hinfo⟩ :=
      createContainerInfo_of_fetch d defaultInterfaceName (clock (idx + 1)) c doc hdoc
    obtain ⟨out, hout, hkeys⟩ := ih (idx + 1) (infos.set c.ID info)
      (fun x hx => h x (List.mem_cons_of_mem _ hx))
    refine ⟨out, ?_, ?_⟩
    · simp only [containerLoop, hinfo]
      exact hout
    · intro key
      rw [hkeys key, InfoMap.get?_set]
      by_cases hk : key = c.ID
      · simp [hk]
      · simp [hk]

/-- When the fetches before a container succeed and its own fetch returns an
error, the loop returns that error and a nil map. -/
theorem containerLoop_of_error (d : DockerClient) (defaultInterfaceName : String)
    (clock : Nat → Time) (before after : List Container) (failing : Container) (err : Error)
    (idx : Nat) (infos : InfoMap)
    (h : ∀ c ∈ before, ∃ doc, getStatsForContainer d c.ID = Outcome.returned (some doc) none)
    (hfail : getStatsForContainer d failing.ID = Outcome.returned none (some err)) :
    containerLoop d defaultInterfaceName clock idx (before ++ failing :: after) infos
      = Outcome.returned none (some err) := by
  induction before generalizing idx infos with
  | nil =>
    simp only [List.nil_append, containerLoop,
      createContainerInfo_of_error d defaultInterfaceName _ failing err hfail]
  | cons c rest ih =>
    obtain ⟨doc, hdoc⟩ := h c (List.mem_cons_self _ _)
    obtain ⟨info, hinfo⟩ :=
      createContainerInfo_of_fetch d defaultInterfaceName (clock (idx + 1)) c doc hdoc
    simp only [List.cons_append, containerLoop, hinfo]
    exact ih (idx + 1) _ (fun x hx => h x (List.mem_cons_of_mem _ hx))

/-- `WinContainerInfos` with a runtime whose fetches all succeed: the map
has an entry for `/` and for each listed container ID, and for no other key. -/
theorem WinContainerInfos_of_fetches (d : DockerClient) (defaultInterfaceName : String)
    (clock : Nat → Time) (c : Client) (hlist : d.ContainerList.2 = none)
    (h : ∀ x ∈ d.ContainerList.1,
      ∃ doc, getStatsForContainer d x.ID = Outcome.returned (some doc) none) :
    ∃ out, WinContainerInfos d defaultInterfaceName clock c = Outcome.returned (some out) none ∧
      ∀ key, (out.get? key).isSome = true ↔
        (key = "/" ∨ key ∈ d.ContainerList.1.map Container.ID) := by
  obtain ⟨out, hout, hkeys⟩ := containerLoop_of_fetches d defaultInterfaceName clock
    d.ContainerList.1 0 (InfoMap.set [] "/" (createRootContainerInfo c (clock 0)).1) h
  refine ⟨out, ?_, ?_⟩
  · unfold WinContainerInfos
    rcases hd : d.ContainerList with ⟨containers, e⟩
    rw [hd] at hlist hout
    simp only at hlist
    subst hlist
    exact hout
  · intro key
    rw [hkeys key, InfoMap.get?_set]
    by_cases hk : key = "/"
    · simp [hk]
    · simp [hk, InfoMap.get?]

/-- `WinContainerInfos` with a runtime whose fetch for one container returns
an error with a body, after successful fetches: the error comes back with a
nil map. -/
theorem WinContainerInfos_of_error (d : DockerClient) (defaultInterfaceName : String)
    (clock : Nat → Time) (c : Client) (before after : List Container) (failing : Container)
    (err : Error) (hlist : d.ContainerList = (before ++ failing :: after, none))
    (h : ∀ x ∈ before, ∃ doc, getStatsForContainer d x.ID = Outcome.returned (some doc) none)
    (hfail : getStatsForContainer d failing.ID = Outcome.returned none (some err)) :
    WinContainerInfos d defaultInterfaceName clock c = Outcome.returned none (some err) := by
  unfold WinContainerInfos
  rw [hlist]
  exact containerLoop_of_error d defaultInterfaceName clock before after failing err 0 _ h hfail

/-! ## Lemmas on the constants of the client -/

/-- Each call keeps the capacity and the start time of the client, and
every root record listed so far reports them. -/
theorem Op.run_keeps (p : Platform) (capacity : Nat) (started : Time)
    (s : Client × List ContainerInfo) (op : Op)
    (h : s.1.memoryPhysicalCapacityBytes = capacity ∧ s.1.timeStarted = started ∧
      ∀ r ∈ s.2, r.Spec.Memory.Limit = capacity ∧ r.Spec.CreationTime = started) :
    (Op.run p s op).1.memoryPhysicalCapacityBytes = capacity ∧
    (Op.run p s op).1.timeStarted = started ∧
    ∀ r ∈ (Op.run p s op).2, r.Spec.Memory.Limit = capacity ∧ r.Spec.CreationTime = started := by
  obtain ⟨hcap, hstart, hrec⟩ := h
  cases op with
  | updateCPU m => exact ⟨hcap, hstart, hrec⟩
  | updateMemoryWorkingSet m => exact ⟨hcap, hstart, hrec⟩
  | updateMemoryCommittedBytes m => exact ⟨hcap, hstart, hrec⟩
  | createRootContainerInfo now =>
    refine ⟨hcap, hstart, ?_⟩
    intro r hr
    simp only [Op.run, List.mem_append, List.mem_singleton] at hr
    rcases hr with hr | hr
    · exact hrec r hr
    · subst hr
      exact ⟨hcap, hstart⟩

theorem foldl_run_keeps (p : Platform) (capacity : Nat) (started : Time) (ops : List Op)
    (s : Client × List ContainerInfo)
    (h : s.1.memoryPhysicalCapacityBytes = capacity ∧ s.1.timeStarted = started ∧
      ∀ r ∈ s.2, r.Spec.Memory.Limit = capacity ∧ r.Spec.CreationTime = started) :
    (ops.foldl (Op.run p) s).1.memoryPhysicalCapacityBytes = capacity ∧
    (ops.foldl (Op.run p) s).1.timeStarted = started ∧
    ∀ r ∈ (ops.foldl (Op.run p) s).2,
      r.Spec.Memory.Limit = capacity ∧ r.Spec.CreationTime = started := by
  induction ops generalizing s with
  | nil => exact h
  | cons op rest ih => exact ih _ (Op.run_keeps p capacity started s op h)

/-! ## Lemmas on the network entries -/

theorem foldl_append_singleton {α β : Type} (g : α → β) (xs : List α) (acc : List β) :
    xs.foldl (fun out x => out ++ [g x]) acc = acc ++ xs.map g := by
  induction xs generalizing acc with
  | nil => simp
  | cons x rest ih => rw [List.foldl_cons, ih, List.map_cons, List.append_assoc]; rfl

/-- The loop over the network entries is a map: entry by entry, in the order
of the loop. -/
theorem networkInterfaces_eq_map (defaultInterfaceName : String)
    (networks : List (String × DockerNetworkStats)) :
    networkInterfaces defaultInterfaceName networks
      = networks.map (fun entry => InterfaceStats.mk defaultInterfaceName
          entry.2.RxBytes entry.2.RxPackets entry.2.RxErrors entry.2.RxDropped
          entry.2.TxBytes entry.2.TxPackets entry.2.TxErrors entry.2.TxDropped) := by
  unfold networkInterfaces
  rw [foldl_append_singleton (fun entry : String × DockerNetworkStats =>
    InterfaceStats.mk defaultInterfaceName
      entry.2.RxBytes entry.2.RxPackets entry.2.RxErrors entry.2.RxDropped
      entry.2.TxBytes entry.2.TxPackets entry.2.TxErrors entry.2.TxDropped)]
  rfl

/-! ## Claims -/

/-- C1, as stated, fails: on three cores one sample of 29 percent leaves
869,999,999 in the accumulator, while the exact value of
`29 / 100 * 3 * 1e9` is 870,000,000. -/
theorem updateCPU_exact_sum_counterexample :
    F64.representable (F64.lit 29) = true ∧
    (((([⟨cpuQuery, F64.lit 29⟩] : List Metric).foldl (updateCPU threeCores) zeroClient).cpuUsageCoreNanoSeconds
        : Nat) : ℚ) ≠ exactCpuSum 3 [⟨cpuQuery, F64.lit 29⟩] := by
  have h : (([⟨cpuQuery, F64.lit 29⟩] : List Metric).foldl (updateCPU threeCores) zeroClient).cpuUsageCoreNanoSeconds
      = 869999999 := by
    rw [List.foldl_cons, List.foldl_nil, updateCPU_cpu, cpuDelta_twentynine_threeCores]
    decide
  refine ⟨representable_twentynine, ?_⟩
  rw [h]
  simp [exactCpuSum, F64.toRat, F64.lit]
  norm_num

/-- C1, amended: applied to a client whose accumulator starts at 0, a run of
CPU samples leaves the sum, modulo `2 ^ 64`, of the per-sample amounts
`uint64((percent / 100.0) * float64(numCores) * 1e9)` (float64 arithmetic,
truncated); every permutation of the run leaves the same value; one sample
of 50 on 4 cores leaves exactly 2,000,000,000. -/
theorem updateCPU_sum_of_truncated (p : Platform) (c : Client) (samples permuted : List Metric)
    (h0 : c.cpuUsageCoreNanoSeconds = 0) (hperm : samples.Perm permuted) :
    (samples.foldl (updateCPU p) c).cpuUsageCoreNanoSeconds
        = (samples.map (cpuDelta p)).sum % uint64Size ∧
    (permuted.foldl (updateCPU p) c).cpuUsageCoreNanoSeconds
        = (samples.foldl (updateCPU p) c).cpuUsageCoreNanoSeconds ∧
    (∀ (impl : F64 → Nat) (name : String),
      (updateCPU ⟨4, impl⟩ c ⟨name, F64.lit 50⟩).cpuUsageCoreNanoSeconds = 2000000000) := by
  have hc : c.cpuUsageCoreNanoSeconds < uint64Size := by rw [h0]; exact uint64Size_pos
  refine ⟨?_, ?_, ?_⟩
  · rw [foldl_updateCPU_cpu p samples c hc, h0, Nat.zero_add]
  · rw [foldl_updateCPU_cpu p samples c hc, foldl_updateCPU_cpu p permuted c hc,
      (hperm.map (cpuDelta p)).sum_eq]
  · intro impl name
    rw [updateCPU_cpu, h0, Nat.zero_add, cpuDelta_fifty_on_four]
    decide

/-- Witness for C1: two samples, 50 and 29 percent, and the run in the
opposite order, on a client starting at zero. -/
theorem updateCPU_sum_of_truncated_witness :
    (([⟨cpuQuery, F64.lit 50⟩, ⟨cpuQuery, F64.lit 29⟩] : List Metric).foldl
        (updateCPU fourCores) zeroClient).cpuUsageCoreNanoSeconds
        = (([⟨cpuQuery, F64.lit 50⟩, ⟨cpuQuery, F64.lit 29⟩] : List Metric).map
            (cpuDelta fourCores)).sum % uint64Size ∧
    (([⟨cpuQuery, F64.lit 29⟩, ⟨cpuQuery, F64.lit 50⟩] : List Metric).foldl
        (updateCPU fourCores) zeroClient).cpuUsageCoreNanoSeconds
        = (([⟨cpuQuery, F64.lit 50⟩, ⟨cpuQuery, F64.lit 29⟩] : List Metric).foldl
            (updateCPU fourCores) zeroClient).cpuUsageCoreNanoSeconds ∧
    (∀ (impl : F64 → Nat) (name : String),
      (updateCPU ⟨4, impl⟩ zeroClient ⟨name, F64.lit 50⟩).cpuUsageCoreNanoSeconds = 2000000000) :=
  updateCPU_sum_of_truncated fourCores zeroClient _ _ rfl (List.Perm.swap _ _ [])

/-- C2, as stated, fails: with the accumulator at `2 ^ 64 - 1`, one sample of
50 percent on 4 cores wraps it around to 1,999,999,999. -/
theorem updateCPU_decreases_counterexample :
    (updateCPU fourCores { zeroClient with cpuUsageCoreNanoSeconds := 2 ^ 64 - 1 }
        ⟨cpuQuery, F64.lit 50⟩).cpuUsageCoreNanoSeconds = 1999999999 ∧
    (updateCPU fourCores { zeroClient with cpuUsageCoreNanoSeconds := 2 ^ 64 - 1 }
        ⟨cpuQuery, F64.lit 50⟩).cpuUsageCoreNanoSeconds
      < ({ zeroClient with cpuUsageCoreNanoSeconds := 2 ^ 64 - 1 } : Client).cpuUsageCoreNanoSeconds := by
  have h : (updateCPU fourCores { zeroClient with cpuUsageCoreNanoSeconds := 2 ^ 64 - 1 }
        ⟨cpuQuery, F64.lit 50⟩).cpuUsageCoreNanoSeconds = 1999999999 := by
    rw [updateCPU_cpu, cpuDelta_fifty_fourCores]
    decide
  refine ⟨h, ?_⟩
  rw [h]
  decide

/-- C2, amended: the two memory updates leave `cpuUsageCoreNanoSeconds` as it
is, and `updateCPU` does not decrease it whenever the sum of its value and
the amount added is below `2 ^ 64`. -/
theorem cpuUsage_monotone_without_wrap (p : Platform) (c : Client) (m : Metric) :
    (updateMemoryWorkingSet p c m).cpuUsageCoreNanoSeconds = c.cpuUsageCoreNanoSeconds ∧
    (updateMemoryCommittedBytes p c m).cpuUsageCoreNanoSeconds = c.cpuUsageCoreNanoSeconds ∧
    (c.cpuUsageCoreNanoSeconds + cpuDelta p m < uint64Size →
      c.cpuUsageCoreNanoSeconds ≤ (updateCPU p c m).cpuUsageCoreNanoSeconds) := by
  refine ⟨rfl, rfl, ?_⟩
  intro h
  rw [updateCPU_cpu, Nat.mod_eq_of_lt h]
  exact Nat.le_add_right _ _

/-- Witness for C2: from an accumulator at zero, one sample of 50 percent on
4 cores. -/
theorem cpuUsage_monotone_without_wrap_witness :
    zeroClient.cpuUsageCoreNanoSeconds + cpuDelta fourCores ⟨cpuQuery, F64.lit 50⟩ < uint64Size ∧
    zeroClient.cpuUsageCoreNanoSeconds
      ≤ (updateCPU fourCores zeroClient ⟨cpuQuery, F64.lit 50⟩).cpuUsageCoreNanoSeconds := by
  have h : zeroClient.cpuUsageCoreNanoSeconds + cpuDelta fourCores ⟨cpuQuery, F64.lit 50⟩
      < uint64Size := by
    rw [cpuDelta_fifty_fourCores]
    decide
  exact ⟨h, (cpuUsage_monotone_without_wrap fourCores zeroClient ⟨cpuQuery, F64.lit 50⟩).2.2 h⟩


/-- C3, as stated, fails: a working-set sample of value 1.5 leaves 1 in
`memoryPrivWorkingSetBytes`, which is not the value of the sample. -/
theorem gauge_truncates_counterexample :
    F64.representable oneAndAHalf.Value = true ∧
    (fanIn fourCores zeroClient [Sample.mWorkingSet oneAndAHalf]).memoryPrivWorkingSetBytes = 1 ∧
    (((fanIn fourCores zeroClient [Sample.mWorkingSet oneAndAHalf]).memoryPrivWorkingSetBytes : Nat) : ℚ)
      ≠ oneAndAHalf.Value.toRat := by
  have h : (fanIn fourCores zeroClient [Sample.mWorkingSet oneAndAHalf]).memoryPrivWorkingSetBytes
      = 1 := by decide
  refine ⟨by decide, h, ?_⟩
  rw [h]
  simp [oneAndAHalf, F64.toRat]
  norm_num

/-- C3, amended: after any interleaving of deliveries dispatched by the
fan-in loop, `memoryPrivWorkingSetBytes` is `uint64(v)` for the value `v` of
the most recently delivered working-set sample, and `memoryCommittedBytes`
is `uint64(v)` for the value of the most recently delivered committed-bytes
sample, whatever was delivered before it and whatever samples of the other
kinds were delivered after it; `uint64(v)` is `v` itself when `v` is a
whole number below `2 ^ 64`. -/
theorem gauges_hold_latest_sample (p : Platform) (c : Client) (pre post : List Sample)
    (m : Metric) :
    ((∀ s ∈ post, s.isWorkingSet = false) →
      (fanIn p c (pre ++ Sample.mWorkingSet m :: post)).memoryPrivWorkingSetBytes
        = F64.toUint64 p.floatToUint64 m.Value) ∧
    ((∀ s ∈ post, s.isCommittedBytes = false) →
      (fanIn p c (pre ++ Sample.mCommittedBytes m :: post)).memoryCommittedBytes
        = F64.toUint64 p.floatToUint64 m.Value) ∧
    (∀ n : Nat, n < uint64Size → F64.toUint64 p.floatToUint64 (F64.finite false n 0) = n) := by
  refine ⟨?_, ?_, fun n hn => toUint64_whole _ n hn⟩
  · intro h
    rw [fanIn_append]
    show (fanIn p (dispatch p (fanIn p c pre) (Sample.mWorkingSet m)) post).memoryPrivWorkingSetBytes = _
    rw [fanIn_keeps_workingSet p post _ h]
    rfl
  · intro h
    rw [fanIn_append]
    show (fanIn p (dispatch p (fanIn p c pre) (Sample.mCommittedBytes m)) post).memoryCommittedBytes = _
    rw [fanIn_keeps_committedBytes p post _ h]
    rfl

/-- Witness for C3: a working-set sample of 4096 bytes (and a
committed-bytes sample of 4096), each after an earlier sample of its kind
and followed by two CPU samples and a sample of the other gauge. -/
theorem gauges_hold_latest_sample_witness :
    (fanIn fourCores zeroClient
        ([Sample.mWorkingSet oneAndAHalf, Sample.cpu ⟨cpuQuery, F64.lit 50⟩]
          ++ Sample.mWorkingSet ⟨memoryPrivWorkingSetQuery, F64.lit 4096⟩
          :: [Sample.cpu ⟨cpuQuery, F64.lit 50⟩]
        )).memoryPrivWorkingSetBytes = 4096 ∧
    (fanIn fourCores zeroClient
        ([Sample.mWorkingSet oneAndAHalf, Sample.cpu ⟨cpuQuery, F64.lit 50⟩]
          ++ Sample.mCommittedBytes ⟨memoryPrivWorkingSetQuery, F64.lit 4096⟩
          :: [Sample.cpu ⟨cpuQuery, F64.lit 50⟩]
        )).memoryCommittedBytes = 4096 := by
  have h := gauges_hold_latest_sample fourCores zeroClient
    [Sample.mWorkingSet oneAndAHalf, Sample.cpu ⟨cpuQuery, F64.lit 50⟩]
    [Sample.cpu ⟨cpuQuery, F64.lit 50⟩] ⟨memoryPrivWorkingSetQuery, F64.lit 4096⟩
  have h4096 : F64.toUint64 fourCores.floatToUint64 (F64.lit 4096) = 4096 :=
    h.2.2 4096 (by decide)
  refine ⟨?_, ?_⟩
  · rw [h.1 (by intro s hs; simp at hs; subst hs; rfl)]
    exact h4096
  · rw [h.2.1 (by intro s hs; simp at hs; subst hs; rfl)]
    exact h4096

/-- C4: the code departs from the claim. The runtime lists three
containers and the stats call for the second one fails with a nil body and
an error: `getStatsForContainer` defers `response.Close()` before it looks
at the error, the call on the nil body panics, and `WinContainerInfos`
returns neither the error nor a nil map. -/
theorem WinContainerInfos_panics_on_failed_fetch :
    (secondFetchFails.ContainerStats "b").1.isNone = true ∧
    (secondFetchFails.ContainerStats "b").2 = some (Error.runtime "connection refused") ∧
    getStatsForContainer secondFetchFails "b" = Outcome.panicked ∧
    WinContainerInfos secondFetchFails "eth0" (fun _ => 0) zeroClient = Outcome.panicked := by
  refine ⟨rfl, rfl, rfl, ?_⟩
  rfl


/-- C5, as stated, fails: raw ticks of `2 ^ 63` are reported as a total of 0
nanoseconds, not as `2 ^ 63 * 100`: the `uint64` product wraps around. -/
theorem createContainerStats_wraps_counterexample :
    createContainerStats (reportsTicks (2 ^ 63)) "eth0" 0 ⟨"a", "image", 0, []⟩
      = Outcome.returned (some (buildContainerStats "eth0" 0 (docWithTicks (2 ^ 63)))) none ∧
    (buildContainerStats "eth0" 0 (docWithTicks (2 ^ 63))).Cpu = some ⟨⟨0⟩⟩ ∧
    (docWithTicks (2 ^ 63)).Stats.CPUStats.CPUUsage.TotalUsage < uint64Size ∧
    (0 : Nat) ≠ (docWithTicks (2 ^ 63)).Stats.CPUStats.CPUUsage.TotalUsage * 100 := by
  refine ⟨rfl, ?_, ?_, ?_⟩
  · decide
  · decide
  · decide

/-- C5, amended: for every raw stats document fetched for a container,
`createContainerStats` reports `Cpu.Usage.Total` equal to the raw
`TotalUsage` multiplied by 100 modulo `2 ^ 64`, hence to the product itself
whenever that is below `2 ^ 64` (raw ticks of 500 give exactly 50,000), and
copies the memory gauges unchanged (`WorkingSet = PrivateWorkingSet`,
`Usage = Commit`). -/
theorem createContainerStats_converts (d : DockerClient) (defaultInterfaceName : String)
    (now : Time) (container : Container) (doc : StatsJSON)
    (hfetch : getStatsForContainer d container.ID = Outcome.returned (some doc) none) :
    ∃ stats : ContainerStats,
      createContainerStats d defaultInterfaceName now container
        = Outcome.returned (some stats) none ∧
      stats.Cpu = some ⟨⟨doc.Stats.CPUStats.CPUUsage.TotalUsage * 100 % uint64Size⟩⟩ ∧
      (doc.Stats.CPUStats.CPUUsage.TotalUsage * 100 < uint64Size →
        stats.Cpu = some ⟨⟨doc.Stats.CPUStats.CPUUsage.TotalUsage * 100⟩⟩) ∧
      (doc.Stats.CPUStats.CPUUsage.TotalUsage = 500 → stats.Cpu = some ⟨⟨50000⟩⟩) ∧
      stats.Memory = some ⟨doc.Stats.MemoryStats.PrivateWorkingSet, doc.Stats.MemoryStats.Commit⟩ := by
  refine ⟨buildContainerStats defaultInterfaceName now doc, ?_, rfl, ?_, ?_, rfl⟩
  · simp [createContainerStats, hfetch]
  · intro h
    simp [buildContainerStats, Nat.mod_eq_of_lt h]
  · intro h
    simp [buildContainerStats, h, uint64Size]

/-- Witness for C5: a container whose document reports 500 raw ticks. -/
theorem createContainerStats_converts_witness :
    getStatsForContainer (reportsTicks 500) "a" = Outcome.returned (some (docWithTicks 500)) none ∧
    ∃ stats : ContainerStats,
      createContainerStats (reportsTicks 500) "eth0" 0 ⟨"a", "image", 0, []⟩
        = Outcome.returned (some stats) none ∧
      stats.Cpu = some ⟨⟨50000⟩⟩ ∧
      stats.Memory = some ⟨4096, 8192⟩ := by
  have h := createContainerStats_converts (reportsTicks 500) "eth0" 0 ⟨"a", "image", 0, []⟩
    (docWithTicks 500) rfl
  obtain ⟨stats, hret, _, _, h500, hmem⟩ := h
  exact ⟨rfl, stats, hret, h500 rfl, hmem⟩

/-- C6, as stated, fails: when the provider reports `2 ^ 54` kilobytes the
function returns 0 bytes and no error, not `2 ^ 54 * 1024`: the `uint64`
product wraps around. -/
theorem installedMemory_wraps_counterexample :
    getPhysicallyInstalledSystemMemoryBytes (reportsKiloBytes (2 ^ 54)) = (0, none) ∧
    (reportsKiloBytes (2 ^ 54)).physicalMemoryKiloBytes < uint64Size ∧
    (0 : Nat) ≠ (reportsKiloBytes (2 ^ 54)).physicalMemoryKiloBytes * 1024 := by
  refine ⟨?_, ?_, ?_⟩
  · decide
  · decide
  · decide

/-- C6, amended: when the provider succeeds with `kb` kilobytes,
`getPhysicallyInstalledSystemMemoryBytes` returns `kb * 1024` modulo
`2 ^ 64` and no error, hence `kb * 1024` itself whenever `kb < 2 ^ 54`
(8,388,608 KB give exactly 8,589,934,592 bytes); it returns an error exactly
when the provider reports failure, and then the value 0. -/
theorem installedMemory_converts (w : MemoryProvider) :
    (w.ok = true → getPhysicallyInstalledSystemMemoryBytes w
        = (w.physicalMemoryKiloBytes * 1024 % uint64Size, none)) ∧
    (w.ok = true → w.physicalMemoryKiloBytes < 2 ^ 54 →
      getPhysicallyInstalledSystemMemoryBytes w = (w.physicalMemoryKiloBytes * 1024, none)) ∧
    (w.ok = true → w.physicalMemoryKiloBytes = 8388608 →
      getPhysicallyInstalledSystemMemoryBytes w = (8589934592, none)) ∧
    (w.ok = false → getPhysicallyInstalledSystemMemoryBytes w = (0, some Error.physicalMemory)) ∧
    ((getPhysicallyInstalledSystemMemoryBytes w).2 ≠ none ↔ w.ok = false) := by
  refine ⟨?_, ?_, ?_, ?_, ?_⟩
  · intro h
    simp [getPhysicallyInstalledSystemMemoryBytes, h]
  · intro h hkb
    have hlt : w.physicalMemoryKiloBytes * 1024 < uint64Size := by
      have : uint64Size = 2 ^ 54 * 1024 := by decide
      rw [this]
      exact Nat.mul_lt_mul_of_pos_right hkb (by decide)
    simp [getPhysicallyInstalledSystemMemoryBytes, h, Nat.mod_eq_of_lt hlt]
  · intro h hkb
    simp [getPhysicallyInstalledSystemMemoryBytes, h, hkb, uint64Size]
  · intro h
    simp [getPhysicallyInstalledSystemMemoryBytes, h]
  · cases hok : w.ok <;> simp [getPhysicallyInstalledSystemMemoryBytes, hok]

/-- Witness for C6: a provider reporting 8,388,608 kilobytes. -/
theorem installedMemory_converts_witness :
    (reportsKiloBytes 8388608).ok = true ∧
    (reportsKiloBytes 8388608).physicalMemoryKiloBytes < 2 ^ 54 ∧
    getPhysicallyInstalledSystemMemoryBytes (reportsKiloBytes 8388608) = (8589934592, none) :=
  ⟨rfl, by decide,
    (installedMemory_converts (reportsKiloBytes 8388608)).2.2.1 rfl rfl⟩


/-- C7, as stated, fails: the CPU counter opens and the path of the
working-set counter is rejected. `NewClient` returns the validation error,
and the sampling loop started for the CPU counter is still running. -/
theorem NewClient_leaves_sampler_counterexample :
    opens windowsConsts secondPathInvalid memoryPrivWorkingSetQuery = false ∧
    (NewClient windowsConsts (reportsKiloBytes 8388608) secondPathInvalid 0).1.2
      = some (Error.validatePath 0xC0000BC0) ∧
    (NewClient windowsConsts (reportsKiloBytes 8388608) secondPathInvalid 0).2
      = [Task.sampler cpuQuery] ∧
    (NewClient windowsConsts (reportsKiloBytes 8388608) secondPathInvalid 0).2 ≠ [] := by
  have h : (NewClient windowsConsts (reportsKiloBytes 8388608) secondPathInvalid 0).2
      = [Task.sampler cpuQuery] := by rfl
  refine ⟨by rfl, by rfl, h, ?_⟩
  rw [h]
  exact List.cons_ne_nil _ _

/-- C7, amended: if the installed memory cannot be read, or if one of the
three counter sources fails to open, `NewClient` returns that error and the
fan-in loop is not started; the sampling loops of the sources opened before
the failing one are not stopped: none is running when the first source
fails, the CPU sampler when the second fails, the CPU and working-set
samplers when the third fails. -/
theorem NewClient_failure_tasks (k : WinConsts) (w : MemoryProvider)
    (pdh : String → OpenResults) (now : Time) :
    (w.ok = false → NewClient k w pdh now = ((none, some Error.physicalMemory), [])) ∧
    (w.ok = true → opens k pdh cpuQuery = false →
      (NewClient k w pdh now).1.2 = (readPerformanceCounter k pdh cpuQuery []).1.2 ∧
      (NewClient k w pdh now).1.2 ≠ none ∧
      (NewClient k w pdh now).2 = []) ∧
    (w.ok = true → opens k pdh cpuQuery = true →
      opens k pdh memoryPrivWorkingSetQuery = false →
      (NewClient k w pdh now).1.2
        = (readPerformanceCounter k pdh memoryPrivWorkingSetQuery []).1.2 ∧
      (NewClient k w pdh now).1.2 ≠ none ∧
      (NewClient k w pdh now).2 = [Task.sampler cpuQuery]) ∧
    (w.ok = true → opens k pdh cpuQuery = true →
      opens k pdh memoryPrivWorkingSetQuery = true →
      opens k pdh memoryCommittedBytesQuery = false →
      (NewClient k w pdh now).1.2
        = (readPerformanceCounter k pdh memoryCommittedBytesQuery []).1.2 ∧
      (NewClient k w pdh now).1.2 ≠ none ∧
      (NewClient k w pdh now).2
        = [Task.sampler cpuQuery, Task.sampler memoryPrivWorkingSetQuery]) := by
  refine ⟨?_, ?_, ?_, ?_⟩
  · intro hw
    simp [NewClient, getPhysicallyInstalledSystemMemoryBytes, hw]
  · intro hw h1
    obtain ⟨err, herr, hrun⟩ := readPerformanceCounter_fails k pdh cpuQuery [] h1
    simp [NewClient, getPhysicallyInstalledSystemMemoryBytes, hw, startNodeMonitoring, hrun]
  · intro hw h1 h2
    have hrun1 : readPerformanceCounter k pdh cpuQuery []
        = ((some cpuQuery, none), [Task.sampler cpuQuery]) := by
      simpa using readPerformanceCounter_opens k pdh cpuQuery [] h1
    obtain ⟨err, herr, hrun⟩ := readPerformanceCounter_fails k pdh memoryPrivWorkingSetQuery
      [Task.sampler cpuQuery] h2
    simp [NewClient, getPhysicallyInstalledSystemMemoryBytes, hw, startNodeMonitoring, hrun1,
      hrun, herr]
  · intro hw h1 h2 h3
    have hrun1 : readPerformanceCounter k pdh cpuQuery []
        = ((some cpuQuery, none), [Task.sampler cpuQuery]) := by
      simpa using readPerformanceCounter_opens k pdh cpuQuery [] h1
    have hrun2 : readPerformanceCounter k pdh memoryPrivWorkingSetQuery [Task.sampler cpuQuery]
        = ((some memoryPrivWorkingSetQuery, none),
            [Task.sampler cpuQuery, Task.sampler memoryPrivWorkingSetQuery]) := by
      simpa using readPerformanceCounter_opens k pdh memoryPrivWorkingSetQuery
        [Task.sampler cpuQuery] h2
    obtain ⟨err, herr, hrun⟩ := readPerformanceCounter_fails k pdh memoryCommittedBytesQuery
      [Task.sampler cpuQuery, Task.sampler memoryPrivWorkingSetQuery] h3
    simp [NewClient, getPhysicallyInstalledSystemMemoryBytes, hw, startNodeMonitoring, hrun1,
      hrun2, hrun, herr]

/-- Witness for C7: the CPU counter opens and the path of the working-set
counter is rejected. -/
theorem NewClient_failure_tasks_witness :
    (reportsKiloBytes 8388608).ok = true ∧
    opens windowsConsts secondPathInvalid cpuQuery = true ∧
    opens windowsConsts secondPathInvalid memoryPrivWorkingSetQuery = false ∧
    (NewClient windowsConsts (reportsKiloBytes 8388608) secondPathInvalid 0).1.2
      = (readPerformanceCounter windowsConsts secondPathInvalid memoryPrivWorkingSetQuery []).1.2 ∧
    (NewClient windowsConsts (reportsKiloBytes 8388608) secondPathInvalid 0).1.2 ≠ none ∧
    (NewClient windowsConsts (reportsKiloBytes 8388608) secondPathInvalid 0).2
      = [Task.sampler cpuQuery] :=
  ⟨rfl, by rfl, by rfl,
    (NewClient_failure_tasks windowsConsts (reportsKiloBytes 8388608) secondPathInvalid 0).2.2.1
      rfl (by rfl) (by rfl)⟩

/-- C8: the code departs from the claim. On a tick whose collection
succeeds and whose first `PdhGetFormattedCounterArrayDouble` returns an error
instead of `PDH_MORE_DATA`, `collectCounterData` still sends a metric: the
zero `Metric`, whose name is empty, not the counter path, and whose value 0
is not a value of the counter. -/
theorem collectCounterData_sends_zero_metric :
    formatFails.collectQueryData = windowsConsts.ERROR_SUCCESS ∧
    formatFails.firstRet ≠ windowsConsts.PDH_MORE_DATA ∧
    collectCounterData windowsConsts formatFails cpuQuery = Emission.sent ⟨"", F64.finite false 0 0⟩ ∧
    (⟨"", F64.finite false 0 0⟩ : Metric).Name ≠ cpuQuery := by
  refine ⟨rfl, by decide, rfl, by decide⟩

/-- C9: whatever sequence of `updateCPU`, `updateMemoryWorkingSet`,
`updateMemoryCommittedBytes` and `createRootContainerInfo` calls is run on a
client, `memoryPhysicalCapacityBytes` and `timeStarted` have the same values
afterwards as before, and every root record produced on the way reports
those values as memory limit and creation time. -/
theorem capacity_and_start_immutable (p : Platform) (c : Client) (ops : List Op) :
    (runOps p c ops).1.memoryPhysicalCapacityBytes = c.memoryPhysicalCapacityBytes ∧
    (runOps p c ops).1.timeStarted = c.timeStarted ∧
    ∀ r ∈ (runOps p c ops).2,
      r.Spec.Memory.Limit = c.memoryPhysicalCapacityBytes ∧
      r.Spec.CreationTime = c.timeStarted :=
  foldl_run_keeps p c.memoryPhysicalCapacityBytes c.timeStarted ops (c, [])
    ⟨rfl, rfl, fun _ hr => absurd hr (List.not_mem_nil _)⟩

/-- C10: for every client, `createRootContainerInfo` produces a root record
whose creation time is `timeStarted`, whose memory limit is
`memoryPhysicalCapacityBytes`, and whose stats list has exactly one sample,
with CPU total `cpuUsageCoreNanoSeconds`, working set
`memoryPrivWorkingSetBytes` and usage `memoryCommittedBytes`, stamped with
the time of the call; the client is left unchanged. -/
theorem createRootContainerInfo_snapshot (c : Client) (now : Time) :
    (createRootContainerInfo c now).1.Spec.CreationTime = c.timeStarted ∧
    (createRootContainerInfo c now).1.Spec.Memory.Limit = c.memoryPhysicalCapacityBytes ∧
    (createRootContainerInfo c now).1.Stats.length = 1 ∧
    (∀ sample ∈ (createRootContainerInfo c now).1.Stats,
      sample.Cpu = some ⟨⟨c.cpuUsageCoreNanoSeconds⟩⟩ ∧
      sample.Memory = some ⟨c.memoryPrivWorkingSetBytes, c.memoryCommittedBytes⟩ ∧
      sample.Timestamp = now) ∧
    (createRootContainerInfo c now).2 = c := by
  refine ⟨rfl, rfl, rfl, ?_, rfl⟩
  intro sample hs
  simp only [createRootContainerInfo, List.nil_append, List.mem_singleton] at hs
  subst hs
  exact ⟨rfl, rfl, rfl⟩


/-- C11: for every raw stats document fetched for a container, with `n`
network entries, `createContainerStats` returns `n` interface records; the
record at each position carries the eight rx/tx byte, packet, error and
dropped counters of the raw entry at that position unchanged, and the name
of every record is `network.DefaultInterfaceName`. -/
theorem createContainerStats_maps_networks (d : DockerClient) (defaultInterfaceName : String)
    (now : Time) (container : Container) (doc : StatsJSON)
    (hfetch : getStatsForContainer d container.ID = Outcome.returned (some doc) none) :
    ∃ (stats : ContainerStats) (interfaces : List InterfaceStats),
      createContainerStats d defaultInterfaceName now container
        = Outcome.returned (some stats) none ∧
      stats.Network = some ⟨interfaces⟩ ∧
      interfaces.length = doc.Networks.length ∧
      (∀ (i : Nat) (entry : String × DockerNetworkStats), doc.Networks[i]? = some entry →
        ∃ r, interfaces[i]? = some r ∧
          r.RxBytes = entry.2.RxBytes ∧ r.RxPackets = entry.2.RxPackets ∧
          r.RxErrors = entry.2.RxErrors ∧ r.RxDropped = entry.2.RxDropped ∧
          r.TxBytes = entry.2.TxBytes ∧ r.TxPackets = entry.2.TxPackets ∧
          r.TxErrors = entry.2.TxErrors ∧ r.TxDropped = entry.2.TxDropped) ∧
      (∀ r ∈ interfaces, r.Name = defaultInterfaceName) := by
  refine ⟨buildContainerStats defaultInterfaceName now doc,
    networkInterfaces defaultInterfaceName doc.Networks, ?_, rfl, ?_, ?_, ?_⟩
  · simp [createContainerStats, hfetch]
  · rw [networkInterfaces_eq_map, List.length_map]
  · intro i entry hentry
    rw [networkInterfaces_eq_map, List.getElem?_map, hentry]
    exact ⟨_, rfl, rfl, rfl, rfl, rfl, rfl, rfl, rfl, rfl⟩
  · intro r hr
    rw [networkInterfaces_eq_map, List.mem_map] at hr
    obtain ⟨entry, _, hentry⟩ := hr
    rw [← hentry]

/-- Witness for C11: a container whose document has two network entries. -/
theorem createContainerStats_maps_networks_witness :
    getStatsForContainer reportsTwoNetworks "a"
      = Outcome.returned (some docWithTwoNetworks) none ∧
    ∃ (stats : ContainerStats) (interfaces : List InterfaceStats),
      createContainerStats reportsTwoNetworks "eth0" 0 ⟨"a", "image", 0, []⟩
        = Outcome.returned (some stats) none ∧
      stats.Network = some ⟨interfaces⟩ ∧
      interfaces.length = 2 ∧
      (∃ r, interfaces[1]? = some r ∧ r.RxBytes = 20 ∧ r.TxDropped = 27) ∧
      (∀ r ∈ interfaces, r.Name = "eth0") := by
  obtain ⟨stats, interfaces, hret, hnet, hlen, hentries, hname⟩ :=
    createContainerStats_maps_networks reportsTwoNetworks "eth0" 0 ⟨"a", "image", 0, []⟩
      docWithTwoNetworks rfl
  obtain ⟨r, hr, h1, _, _, _, _, _, _, h8⟩ :=
    hentries 1 ("overlay", ⟨20, 21, 22, 23, 24, 25, 26, 27⟩) rfl
  exact ⟨rfl, stats, interfaces, hret, hnet, hlen, ⟨r, hr, h1, h8⟩, hname⟩

end Winstats
